import Mathlib

/-!
Verification of the agents workspace frontend and of the agent
orchestration core described by its design document.

The frontend definitions are shallow embeddings of the TypeScript in
`frontend/src` (types/index.ts, app/automated-analysis/page.tsx,
components/features/insights/KommuneInsightsView.tsx).  The backend
(query gateway, intent classifier, workflow orchestrator) is not part of
the shipped sources, so those components are modelled from the design
document and are marked as such in their doc comments.
-/

set_option autoImplicit false

namespace Agents

/-! ## JSON-like values

A loosely typed value domain standing for the JSON payloads exchanged on
the wire (TypeScript `unknown` / JSON). -/

/-- A JSON value: string, finite number, boolean, null, array or object. -/
inductive JVal where
  | str (s : String)
  | num (q : ℚ)
  | bool (b : Bool)
  | null
  | arr (xs : List JVal)
  | obj (fields : List (String × JVal))

/-! ## Frontend data types, from `frontend/src/types/index.ts` -/

/-- `AgentAnalysisOption` from types/index.ts: `{key, label, description}`. -/
structure AgentAnalysisOption where
  key : String
  label : String
  description : String
deriving DecidableEq

/-- `AgentAnalysisSection` from types/index.ts: `{key, title, summary, status,
data}`.  The TypeScript `data: unknown` field is embedded as a type
parameter. -/
structure AgentAnalysisSection (α : Type) where
  key : String
  title : String
  summary : String
  status : String
  data : α
deriving DecidableEq

/-- The `llm_summary` object of `AgentChatResponse`: optional `text` and
`error` string fields. -/
structure AgentLlmSummary where
  text : Option String
  error : Option String
deriving DecidableEq

/-- `AgentChatResponse` from types/index.ts: optional `summary`, optional
`llm_summary`, optional `analysis_sections`. -/
structure AgentChatResponse (α : Type) where
  summary : Option String
  llm_summary : Option AgentLlmSummary
  analysis_sections : Option (List (AgentAnalysisSection α))
deriving DecidableEq

/-! ## Selection state logic, from `app/automated-analysis/page.tsx` -/

/-- `toggleAnalysisKey` from page.tsx lines 199-206: if the key is already
selected, drop every occurrence; otherwise append it at the end. -/
def toggleAnalysisKey (prev : List String) (key : String) : List String :=
  if prev.contains key then prev.filter (fun item => item ≠ key)
  else prev ++ [key]

/-- `selectedSections` from page.tsx lines 168-172: the sections of the agent
response whose key is among the selected analyses; empty when the response
or its `analysis_sections` is absent. -/
def selectedSections {α : Type} (agentResponse : Option (AgentChatResponse α))
    (selectedAnalyses : List String) : List (AgentAnalysisSection α) :=
  match agentResponse with
  | none => []
  | some r =>
    match r.analysis_sections with
    | none => []
    | some sections => sections.filter (fun s => selectedAnalyses.contains s.key)

/-- `displayedSummary` from page.tsx lines 174-179: the trimmed LLM summary
text when the LLM summary is enabled and non-empty, otherwise the response's
`summary` field (empty string when absent). -/
def displayedSummary {α : Type} (agentResponse : Option (AgentChatResponse α))
    (useLlmSummary : Bool) : String :=
  let llmText :=
    match agentResponse with
    | some r =>
      match r.llm_summary with
      | some ls =>
        match ls.text with
        | some t => t.trim
        | none => ""
      | none => ""
    | none => ""
  if useLlmSummary && llmText != "" then llmText
  else
    match agentResponse with
    | some r => r.summary.getD ""
    | none => ""

/-! ## Tenant share computation, from
`components/features/insights/KommuneInsightsView.tsx` -/

/-- A JavaScript value as seen by the `asNumber` coercion: a finite number, a
non-finite number (NaN or an infinity), `null`, `undefined`, or a boolean. -/
inductive JsNumInput where
  | num (q : ℚ)
  | nonFinite
  | null
  | jsUndefined
  | boolean (b : Bool)
deriving DecidableEq

/-- `asNumber` from KommuneInsightsView.tsx lines 201-204: `Number(value)`
guarded by `Number.isFinite`, defaulting to 0. -/
def asNumber : JsNumInput → ℚ
  | .num q => q
  | .nonFinite => 0
  | .null => 0
  | .jsUndefined => 0
  | .boolean b => if b then 1 else 0

/-- The `tenant_activity_proxy.summary` payload fields read by
`withTenantsSharePercent`. -/
structure TenantSummary where
  with_tenants_share_percent : JsNumInput
  total_properties : JsNumInput
  with_tenants_count : JsNumInput
deriving DecidableEq

/-- Optional-chaining access `tenantSummary?.with_tenants_share_percent`. -/
def directShareField (t : Option TenantSummary) : JsNumInput :=
  match t with
  | some s => s.with_tenants_share_percent
  | none => .jsUndefined

/-- Optional-chaining access `tenantSummary?.total_properties`. -/
def totalPropertiesField (t : Option TenantSummary) : JsNumInput :=
  match t with
  | some s => s.total_properties
  | none => .jsUndefined

/-- Optional-chaining access `tenantSummary?.with_tenants_count`. -/
def withTenantsCountField (t : Option TenantSummary) : JsNumInput :=
  match t with
  | some s => s.with_tenants_count
  | none => .jsUndefined

/-- `withTenantsSharePercent` from KommuneInsightsView.tsx lines 325-332:
return the reported share when positive; else 0 when the total is not
positive; else compute `100 * with_tenants_count / total_properties`. -/
def withTenantsSharePercent (tenantSummary : Option TenantSummary) : ℚ :=
  let direct := asNumber (directShareField tenantSummary)
  if 0 < direct then direct
  else
    let total := asNumber (totalPropertiesField tenantSummary)
    let withTenants := asNumber (withTenantsCountField tenantSummary)
    if total ≤ 0 then 0
    else 100 * withTenants / total

/-! ## Workflow launch logic, from `app/automated-analysis/page.tsx` -/

/-- A kommune ranking row, with the two fields page.tsx reads
(`item.kommune`, `item.total_bruksareal`). -/
structure KommuneScore where
  kommune : String
  total_bruksareal : ℚ
deriving DecidableEq

/-- Lowercase a string character by character, as `toLowerCase` does for the
ASCII names compared here. -/
def lowerChars (s : String) : List Char :=
  s.data.map Char.toLower

/-- `selectedKommuneMeta` from page.tsx lines 163-166: the first kommune
option whose name matches the selected name case-insensitively, or none. -/
def selectedKommuneMeta (kommuneOptions : List KommuneScore)
    (selectedKommuneName : Option String) : Option KommuneScore :=
  kommuneOptions.find?
    (fun item => lowerChars item.kommune == lowerChars (selectedKommuneName.getD ""))

/-- The JSON body posted to `POST /agents/chat` by page.tsx lines 232-240. -/
structure ChatRequestBody where
  message : String
  workflow : String
  kommune_name : String
  data_source : String
  requested_analyses : List String
  use_llm : Bool
  include_mcp_resources : Bool
deriving DecidableEq

/-- The observable outcome of one `handleRunWorkflow` invocation: either the
request is rejected at the boundary (with `analysisError` set to the given
message and no POST issued) or exactly one POST body is sent. -/
inductive RunAction where
  | rejected (analysisError : String)
  | posted (body : ChatRequestBody)
deriving DecidableEq

/-- `handleRunWorkflow` from page.tsx lines 214-250, up to the point the POST
request is issued: reject when no valid kommune is selected, then reject when
no analysis is selected, otherwise build and send the request body. -/
def handleRunWorkflow (kommuneOptions : List KommuneScore)
    (selectedKommuneName : Option String) (selectedAnalyses : List String)
    (useLlmSummary : Bool) : RunAction :=
  match selectedKommuneMeta kommuneOptions selectedKommuneName with
  | none => .rejected "Select a valid kommune before running analysis."
  | some meta =>
    if selectedAnalyses.length = 0 then
      .rejected "Select at least one analysis option."
    else
      .posted
        { message := ""
          workflow := "kommune_match_overview"
          kommune_name := meta.kommune
          data_source := "raw"
          requested_analyses := selectedAnalyses
          use_llm := useLlmSummary
          include_mcp_resources := false }

/-! ## Wire shapes of the `POST /chat` exchange -/

/-- JSON serialization of the chat request body, with the field order of the
object literal in page.tsx lines 232-240. -/
def encodeChatRequestBody (b : ChatRequestBody) : List (String × JVal) :=
  [("message", .str b.message),
   ("workflow", .str b.workflow),
   ("kommune_name", .str b.kommune_name),
   ("data_source", .str b.data_source),
   ("requested_analyses", .arr (b.requested_analyses.map JVal.str)),
   ("use_llm", .bool b.use_llm),
   ("include_mcp_resources", .bool b.include_mcp_resources)]

/-- JSON serialization of one analysis section record
(`{key, title, summary, status, data}`), with the given payload encoder. -/
def encodeSection {α : Type} (encData : α → JVal)
    (s : AgentAnalysisSection α) : List (String × JVal) :=
  [("key", .str s.key),
   ("title", .str s.title),
   ("summary", .str s.summary),
   ("status", .str s.status),
   ("data", encData s.data)]

/-- JSON serialization of the `llm_summary` object; each optional field is
present exactly when set. -/
def encodeLlmSummary (ls : AgentLlmSummary) : List (String × JVal) :=
  (match ls.text with
   | some t => [("text", JVal.str t)]
   | none => []) ++
  (match ls.error with
   | some e => [("error", JVal.str e)]
   | none => [])

/-- JSON serialization of `AgentChatResponse`; each optional field is present
exactly when set. -/
def encodeChatResponse {α : Type} (encData : α → JVal)
    (r : AgentChatResponse α) : List (String × JVal) :=
  (match r.summary with
   | some s => [("summary", JVal.str s)]
   | none => []) ++
  (match r.llm_summary with
   | some ls => [("llm_summary", JVal.obj (encodeLlmSummary ls))]
   | none => []) ++
  (match r.analysis_sections with
   | some secs =>
     [("analysis_sections",
       JVal.arr (secs.map (fun s => JVal.obj (encodeSection encData s))))]
   | none => [])

/-! ## Query Safety Gateway

The gateway lives in the backend (`backend/app/db/duckdb_service.py`), which
is not among the shipped sources; it is modelled from the design document
(§4.1). -/

namespace Gateway

/-- Modelled from the spec: the read/write classification of a statement. -/
inductive SqlClass where
  | read
  | write
deriving DecidableEq

/-- Modelled from the spec: the gateway error taxonomy, restricted to the
variants the gateway itself produces (§4.1, §7). -/
inductive QueryError where
  | permissionDenied
  | upstreamError (msg : String)
deriving DecidableEq

/-- Drop the remainder of a `--` line comment, up to and including the
newline. -/
def dropLineComment : List Char → List Char
  | [] => []
  | '\n' :: rest => rest
  | _ :: rest => dropLineComment rest

/-- Drop the remainder of a `/* ... */` block comment, up to and including
the closing delimiter. -/
def dropBlockComment : List Char → List Char
  | [] => []
  | '*' :: '/' :: rest => rest
  | _ :: rest => dropBlockComment rest

/-- Modelled from the spec: skip leading whitespace and leading SQL comments
(`--` line comments and `/* */` block comments).  The fuel argument bounds
the recursion; any fuel of at least the list length is enough, since every
step consumes at least one character. -/
def skipLeadingTrivia : Nat → List Char → List Char
  | 0, cs => cs
  | _ + 1, [] => []
  | fuel + 1, c :: rest =>
    if c.isWhitespace then skipLeadingTrivia fuel rest
    else if c = '-' ∧ rest.head? = some '-' then
      skipLeadingTrivia fuel (dropLineComment rest.tail)
    else if c = '/' ∧ rest.head? = some '*' then
      skipLeadingTrivia fuel (dropBlockComment rest.tail)
    else c :: rest

/-- Modelled from the spec: the statement's leading keyword after skipping
whitespace and comments, uppercased (classification is case-insensitive). -/
def leadingKeyword (sql : String) : String :=
  String.mk
    (((skipLeadingTrivia (sql.data.length + 1) sql.data).takeWhile
        Char.isAlpha).map Char.toUpper)

/-- Modelled from the spec: the leading keywords classified as reads
(`SELECT`, `SHOW`, `DESCRIBE`, `EXPLAIN`, `WITH`). -/
def readLeadingKeywords : List String :=
  ["SELECT", "SHOW", "DESCRIBE", "EXPLAIN", "WITH"]

/-- Modelled from the spec: classify a statement as read or write by its
leading keyword; everything that is not a read keyword is a write. -/
def classifyStatement (sql : String) : SqlClass :=
  if leadingKeyword sql ∈ readLeadingKeywords then .read else .write

/-- A loosely typed cell value: string, number, boolean or null (§4.1). -/
inductive JsCell where
  | str (s : String)
  | num (q : ℚ)
  | bool (b : Bool)
  | null
deriving DecidableEq

/-- Modelled from the spec: the gateway result row set with column names,
rows, row count and a truncation flag. -/
structure RowSet where
  columns : List String
  rows : List (List JsCell)
  row_count : Nat
  truncated : Bool
deriving DecidableEq

/-- Modelled from the spec: the gateway policy configuration (§4.1): the
`read_only` and `allow_write` flags and the row limit. -/
structure GatewayConfig where
  read_only : Bool
  allow_write : Bool
  row_limit : Nat
deriving DecidableEq

/-- The raw outcome of the underlying engine: column names and rows. -/
structure RawResult where
  columns : List String
  rows : List (List JsCell)
deriving DecidableEq

/-- Modelled from the spec: `execute` checks the write policy by
classification before touching the underlying engine (given as an explicit
function argument), then caps successful results at the row limit and marks
them `truncated` instead of failing. -/
def execute (cfg : GatewayConfig) (engine : String → Except String RawResult)
    (sql : String) : Except QueryError RowSet :=
  if classifyStatement sql = .write ∧ cfg.allow_write = false then
    .error .permissionDenied
  else
    match engine sql with
    | .error e => .error (.upstreamError e)
    | .ok raw =>
      .ok
        { columns := raw.columns
          rows := raw.rows.take cfg.row_limit
          row_count := (raw.rows.take cfg.row_limit).length
          truncated := decide (cfg.row_limit < raw.rows.length) }

end Gateway

/-! ## Intent Classifier

The classifier lives in the backend (`backend/app/agents/intent_classifier.py`),
which is not among the shipped sources; it is modelled from the design
document (§4.4). -/

namespace IntentClassifier

/-- The two routing domains (§4.4, glossary). -/
inductive Domain where
  | property
  | claims
deriving DecidableEq

/-- Modelled from the spec: the Intent record: routed domains, per-domain
confidence scores, and the matched keywords in order. -/
structure Intent where
  domains : List Domain
  property_score : ℚ
  claims_score : ℚ
  matched_keywords : List String
deriving DecidableEq

/-- Whether `needle` occurs as a contiguous substring of `hay`. -/
def containsSub (needle : List Char) : List Char → Bool
  | [] => needle.isEmpty
  | c :: rest => needle.isPrefixOf (c :: rest) || containsSub needle rest

/-- Modelled from the spec: the keywords of a static keyword set matched by a
question, case-insensitively, in the keyword set's order. -/
def keywordMatches (keywords : List String) (question : String) : List String :=
  keywords.filter (fun k => containsSub (lowerChars k) (lowerChars question))

/-- Modelled from the spec: a domain's score is the number of matched
keywords normalized by the keyword-set size. -/
def domainScore (keywords : List String) (question : String) : ℚ :=
  (keywordMatches keywords question).length / keywords.length

/-- Modelled from the spec: the classifier configuration: the two static
keyword sets and the minimum threshold. -/
structure ClassifierConfig where
  property_keywords : List String
  claims_keywords : List String
  threshold : ℚ
deriving DecidableEq

/-- Modelled from the spec: `classify` routes to every domain whose score is
above the threshold, and defaults to both domains when neither is. -/
def classify (cfg : ClassifierConfig) (question : String) : Intent :=
  let ps := domainScore cfg.property_keywords question
  let cs := domainScore cfg.claims_keywords question
  { domains :=
      if cfg.threshold < ps ∧ cfg.threshold < cs then [.property, .claims]
      else if cfg.threshold < ps then [.property]
      else if cfg.threshold < cs then [.claims]
      else [.property, .claims]
    property_score := ps
    claims_score := cs
    matched_keywords :=
      keywordMatches cfg.property_keywords question ++
        keywordMatches cfg.claims_keywords question }

end IntentClassifier

/-! ## Workflow Orchestrator / Analysis Aggregator

The orchestrator lives in the backend (`backend/app/agents/service.py`),
which is not among the shipped sources; it is modelled from the design
document (§4.6, §7). -/

namespace Orchestrator

/-- Per-section terminal status (§3). -/
inductive SectionStatus where
  | ok
  | error
deriving DecidableEq

/-- Modelled from the spec: one analysis section of the workflow response. -/
structure AnalysisSection where
  key : String
  title : String
  summary : String
  status : SectionStatus
  data : Option JVal

/-- Modelled from the spec: an Analysis Catalog entry. -/
structure AnalysisOption where
  key : String
  label : String
  description : String
deriving DecidableEq

/-- Modelled from the spec: the optional LLM summary of the response, with
its text or the recorded failure. -/
structure LlmSummary where
  text : Option String
  error : Option String
deriving DecidableEq

/-- Modelled from the spec: the workflow response: ordered sections, the
deterministic fallback aggregate summary, and the optional LLM summary. -/
structure WorkflowResponse where
  sections : List AnalysisSection
  aggregate_summary : String
  llm_summary : Option LlmSummary

/-- Modelled from the spec: resolve one requested key and produce its
section.  An unknown key yields a `NotFound`-flavored error section; a failed
tool plan yields an error section with the first failure's message; a
successful plan yields an `ok` section carrying the merged data.  The tool
plan execution is the explicit `exec` argument. -/
def runSection (catalog : List AnalysisOption)
    (exec : String → String → Except String JVal) (kommune key : String) :
    AnalysisSection :=
  match catalog.find? (fun o => o.key == key) with
  | none =>
    { key := key
      title := key
      summary := "NotFound: unknown analysis key"
      status := .error
      data := none }
  | some opt =>
    match exec key kommune with
    | .error msg =>
      { key := key
        title := opt.label
        summary := msg
        status := .error
        data := none }
    | .ok payload =>
      { key := key
        title := opt.label
        summary := "ok"
        status := .ok
        data := some payload }

/-- Modelled from the spec: the deterministic fallback summary, concatenating
each section's title and one-line status. -/
def aggregateSummary (sections : List AnalysisSection) : String :=
  String.intercalate "; "
    (sections.map (fun s =>
      s.title ++ ": " ++
        (match s.status with
         | .ok => "ok"
         | .error => "error")))

/-- Modelled from the spec: `run` resolves every requested key independently,
builds the fallback aggregate summary, and, when asked, issues the single
external summarization call (the explicit `summarizer` argument), degrading
its failure into `llm_summary.error`. -/
def run (catalog : List AnalysisOption)
    (exec : String → String → Except String JVal)
    (summarizer : List AnalysisSection → Except String String)
    (kommune : String) (requested_keys : List String)
    (use_llm_summary : Bool) : WorkflowResponse :=
  let sections := requested_keys.map (runSection catalog exec kommune)
  { sections := sections
    aggregate_summary := aggregateSummary sections
    llm_summary :=
      if use_llm_summary then
        some
          (match summarizer sections with
           | .ok text => { text := some text, error := none }
           | .error e => { text := none, error := some e })
      else none }

end Orchestrator

/-! ## Theorems -/

/-- C9: `toggleAnalysisKey` appends the key at the end when it is absent and
removes every occurrence when it is present; on a duplicate-free selection,
toggling twice with the same key returns exactly the original list when the
key was absent, and a list with the same members otherwise. -/
theorem toggleAnalysisKey_spec (prev : List String) (k : String)
    (_hnd : prev.Nodup) :
    (k ∉ prev → toggleAnalysisKey prev k = prev ++ [k]) ∧
    (k ∈ prev →
      k ∉ toggleAnalysisKey prev k ∧
      (toggleAnalysisKey prev k).Sublist prev ∧
      ∀ x, x ≠ k → (x ∈ toggleAnalysisKey prev k ↔ x ∈ prev)) ∧
    (k ∉ prev → toggleAnalysisKey (toggleAnalysisKey prev k) k = prev) ∧
    (k ∈ prev →
      ∀ x, x ∈ toggleAnalysisKey (toggleAnalysisKey prev k) k ↔ x ∈ prev) := by
  refine ⟨?_, ?_, ?_, ?_⟩
  · intro hk
    simp [toggleAnalysisKey, hk]
  · intro hk
    have hc : prev.contains k = true := by simpa using hk
    refine ⟨?_, ?_, ?_⟩
    · simp [toggleAnalysisKey, hk]
    · simp only [toggleAnalysisKey]
      rw [if_pos hc]
      exact List.filter_sublist prev
    · intro x hx
      simp [toggleAnalysisKey, hk, hx]
  · intro hk
    have h1 : toggleAnalysisKey prev k = prev ++ [k] := by
      simp [toggleAnalysisKey, hk]
    rw [h1]
    have hc : (prev ++ [k]).contains k = true := by simp
    simp only [toggleAnalysisKey]
    rw [if_pos hc, List.filter_append]
    have h3 : prev.filter (fun item => item ≠ k) = prev :=
      List.filter_eq_self.mpr (fun a ha => by
        simp only [ne_eq, decide_eq_true_eq]
        intro heq
        exact hk (heq ▸ ha))
    rw [h3]
    simp
  · intro hk x
    have h1 : toggleAnalysisKey prev k = prev.filter (fun item => item ≠ k) := by
      simp [toggleAnalysisKey, hk]
    have h2 : (prev.filter (fun item => item ≠ k)).contains k = false := by simp
    rw [h1]
    simp only [toggleAnalysisKey]
    rw [if_neg (by simp [h2])]
    simp only [List.mem_append, List.mem_filter, List.mem_singleton, ne_eq,
      decide_eq_true_eq]
    constructor
    · rintro (⟨hx, _⟩ | rfl)
      · exact hx
      · exact hk
    · intro hx
      by_cases hxk : x = k
      · exact Or.inr hxk
      · exact Or.inl ⟨hx, hxk⟩

/-- C9 witness: toggling an absent key twice on a concrete duplicate-free
selection restores the original selection. -/
theorem toggleAnalysisKey_spec_witness :
    toggleAnalysisKey (toggleAnalysisKey ["a", "b"] "c") "c" = ["a", "b"] :=
  (toggleAnalysisKey_spec ["a", "b"] "c" (by decide)).2.2.1 (by decide)

/-- C8: `selectedSections` is exactly the subsequence of the response's
`analysis_sections` whose key is among the selected analyses (an order
preserving sublist containing each matching section with its original
multiplicity and no non-matching section), and it is empty when the response
or its `analysis_sections` field is absent. -/
theorem selectedSections_spec {α : Type} [DecidableEq α]
    (r : AgentChatResponse α) (sel : List String)
    (secs : List (AgentAnalysisSection α))
    (h : r.analysis_sections = some secs) :
    (selectedSections (some r) sel).Sublist secs ∧
    (∀ s : AgentAnalysisSection α,
      (selectedSections (some r) sel).count s =
        if s.key ∈ sel then secs.count s else 0) ∧
    (∀ rr : AgentChatResponse α, rr.analysis_sections = none →
      selectedSections (some rr) sel = []) ∧
    selectedSections (none : Option (AgentChatResponse α)) sel = [] := by
  have hsel : selectedSections (some r) sel =
      secs.filter (fun s => sel.contains s.key) := by
    simp [selectedSections, h]
  refine ⟨?_, ?_, ?_, rfl⟩
  · rw [hsel]
    exact List.filter_sublist secs
  · intro s
    rw [hsel]
    by_cases hk : s.key ∈ sel
    · rw [if_pos hk]
      exact List.count_filter (by simpa using hk)
    · rw [if_neg hk]
      rw [List.count_eq_zero]
      simp only [List.mem_filter]
      rintro ⟨-, hmem⟩
      exact hk (by simpa using hmem)
  · intro rr hrr
    simp [selectedSections, hrr]

/-- C8 witness: on a concrete response, the selected keys pick out exactly
the matching sections in order. -/
theorem selectedSections_spec_witness :
    (selectedSections
        (some
          { summary := none
            llm_summary := none
            analysis_sections :=
              some [⟨"k1", "t1", "s1", "ok", true⟩, ⟨"k2", "t2", "s2", "ok", false⟩]
            : AgentChatResponse Bool })
        ["k2"]).count (⟨"k2", "t2", "s2", "ok", false⟩ : AgentAnalysisSection Bool) = 1 := by
  have h :=
    (selectedSections_spec
        ({ summary := none
           llm_summary := none
           analysis_sections :=
             some [⟨"k1", "t1", "s1", "ok", true⟩, ⟨"k2", "t2", "s2", "ok", false⟩] }
          : AgentChatResponse Bool)
        ["k2"]
        [⟨"k1", "t1", "s1", "ok", true⟩, ⟨"k2", "t2", "s2", "ok", false⟩]
        rfl).2.1 ⟨"k2", "t2", "s2", "ok", false⟩
  rw [h]
  decide

/-- C10: `withTenantsSharePercent` is a total, guarded computation: a
positive reported share is returned directly; otherwise a non-positive total
yields 0; and the division `100 * with_tenants_count / total_properties` is
computed only when the total is strictly positive, so its denominator is
never non-positive. -/
theorem withTenantsSharePercent_guarded (t : Option TenantSummary) :
    (0 < asNumber (directShareField t) →
      withTenantsSharePercent t = asNumber (directShareField t)) ∧
    (asNumber (directShareField t) ≤ 0 →
      asNumber (totalPropertiesField t) ≤ 0 →
      withTenantsSharePercent t = 0) ∧
    (asNumber (directShareField t) ≤ 0 →
      0 < asNumber (totalPropertiesField t) →
      asNumber (totalPropertiesField t) ≠ 0 ∧
      withTenantsSharePercent t =
        100 * asNumber (withTenantsCountField t) /
          asNumber (totalPropertiesField t)) := by
  refine ⟨?_, ?_, ?_⟩
  · intro h
    simp [withTenantsSharePercent, h]
  · intro h1 h2
    simp [withTenantsSharePercent, not_lt.mpr h1, h2]
  · intro h1 h2
    refine ⟨ne_of_gt h2, ?_⟩
    simp [withTenantsSharePercent, not_lt.mpr h1, not_le.mpr h2]

/-- C10 witness: with a missing reported share value, a total of 4 and a
count of 1, the computed share is 25 percent and the denominator is
nonzero. -/
theorem withTenantsSharePercent_guarded_witness :
    withTenantsSharePercent
        (some
          { with_tenants_share_percent := JsNumInput.null
            total_properties := JsNumInput.num 4
            with_tenants_count := JsNumInput.num 1 }) = 25 := by
  have h :=
    (withTenantsSharePercent_guarded
        (some
          { with_tenants_share_percent := JsNumInput.null
            total_properties := JsNumInput.num 4
            with_tenants_count := JsNumInput.num 1 })).2.2
      (by norm_num [asNumber, directShareField])
      (by norm_num [asNumber, totalPropertiesField])
  rw [h.2]
  norm_num [asNumber, withTenantsCountField, totalPropertiesField]

/-- C4: `handleRunWorkflow` rejects structurally invalid requests at the
boundary before any dispatch: when no valid kommune is selected or the
selection of analyses is empty, no POST body is produced and `analysisError`
is set to the corresponding message; a POST happens only for a valid kommune
and a non-empty selection. -/
theorem handleRunWorkflow_boundary (opts : List KommuneScore)
    (name : Option String) (sel : List String) (u : Bool) :
    ((selectedKommuneMeta opts name = none ∨ sel = []) →
      (∃ msg, handleRunWorkflow opts name sel u = .rejected msg) ∧
      ∀ body, handleRunWorkflow opts name sel u ≠ .posted body) ∧
    (selectedKommuneMeta opts name = none →
      handleRunWorkflow opts name sel u =
        .rejected "Select a valid kommune before running analysis.") ∧
    (∀ m, selectedKommuneMeta opts name = some m → sel = [] →
      handleRunWorkflow opts name sel u =
        .rejected "Select at least one analysis option.") ∧
    (∀ body, handleRunWorkflow opts name sel u = .posted body →
      selectedKommuneMeta opts name ≠ none ∧ sel ≠ []) := by
  cases hm : selectedKommuneMeta opts name with
  | none =>
    have hrun : handleRunWorkflow opts name sel u =
        .rejected "Select a valid kommune before running analysis." := by
      unfold handleRunWorkflow
      rw [hm]
    refine ⟨?_, ?_, ?_, ?_⟩
    · intro _
      refine ⟨⟨_, hrun⟩, fun body h => ?_⟩
      rw [hrun] at h
      exact RunAction.noConfusion h
    · intro _
      exact hrun
    · intro m hm2
      exact absurd hm2 (by simp)
    · intro body h
      rw [hrun] at h
      exact RunAction.noConfusion h
  | some m0 =>
    by_cases hs : sel.length = 0
    · have hsel : sel = [] := List.length_eq_zero.mp hs
      have hrun : handleRunWorkflow opts name sel u =
          .rejected "Select at least one analysis option." := by
        simp [handleRunWorkflow, hm, hs]
      refine ⟨?_, ?_, ?_, ?_⟩
      · intro _
        refine ⟨⟨_, hrun⟩, fun body h => ?_⟩
        rw [hrun] at h
        exact RunAction.noConfusion h
      · intro h
        exact absurd h (by simp)
      · intro m _ _
        exact hrun
      · intro body h
        rw [hrun] at h
        exact RunAction.noConfusion h
    · have hrun : handleRunWorkflow opts name sel u =
          .posted
            { message := ""
              workflow := "kommune_match_overview"
              kommune_name := m0.kommune
              data_source := "raw"
              requested_analyses := sel
              use_llm := u
              include_mcp_resources := false } := by
        simp [handleRunWorkflow, hm, hs]
      refine ⟨?_, ?_, ?_, ?_⟩
      · rintro (h | h)
        · exact absurd h (by simp)
        · exact absurd (h ▸ rfl) hs
      · intro h
        exact absurd h (by simp)
      · intro m _ hsel
        exact absurd (hsel ▸ rfl) hs
      · intro body _
        exact ⟨by simp, fun hsel => hs (hsel ▸ rfl)⟩

/-- C4 witness: with an empty kommune catalog (so no kommune is valid), the
workflow run is rejected with the kommune error and no request is posted. -/
theorem handleRunWorkflow_boundary_witness :
    handleRunWorkflow [] (some "Bergen") ["occupancy"] true =
      RunAction.rejected "Select a valid kommune before running analysis." :=
  (handleRunWorkflow_boundary [] (some "Bergen") ["occupancy"] true).2.1 rfl

/-- C5: every POSTed chat request body consists of exactly the fields
`message`, `workflow`, `kommune_name`, `data_source`, `requested_analyses`
(a list of strings), `use_llm` (a boolean) and `include_mcp_resources`
(a boolean), and the chat response consists of an optional `summary`, an
optional `llm_summary` object with optional `text` and `error` string
fields, and `analysis_sections` as a list of records each having exactly the
fields `key`, `title`, `summary`, `status` and `data`. -/
theorem chat_exchange_shape (opts : List KommuneScore) (name : Option String)
    (sel : List String) (u : Bool) (body : ChatRequestBody)
    (h : handleRunWorkflow opts name sel u = .posted body) :
    ((encodeChatRequestBody body).map Prod.fst =
      ["message", "workflow", "kommune_name", "data_source",
       "requested_analyses", "use_llm", "include_mcp_resources"]) ∧
    (("requested_analyses", JVal.arr (sel.map JVal.str)) ∈
      encodeChatRequestBody body) ∧
    (("use_llm", JVal.bool u) ∈ encodeChatRequestBody body) ∧
    (("include_mcp_resources", JVal.bool false) ∈ encodeChatRequestBody body) ∧
    (∀ (α : Type) (encData : α → JVal) (s : AgentAnalysisSection α),
      (encodeSection encData s).map Prod.fst =
        ["key", "title", "summary", "status", "data"]) ∧
    (∀ (α : Type) (encData : α → JVal) (r : AgentChatResponse α),
      ((encodeChatResponse encData r).map Prod.fst).Sublist
        ["summary", "llm_summary", "analysis_sections"]) ∧
    (∀ ls : AgentLlmSummary,
      ((encodeLlmSummary ls).map Prod.fst).Sublist ["text", "error"]) := by
  have hbody : body.requested_analyses = sel ∧ body.use_llm = u ∧
      body.include_mcp_resources = false := by
    cases hm : selectedKommuneMeta opts name with
    | none =>
      have hrun : handleRunWorkflow opts name sel u =
          .rejected "Select a valid kommune before running analysis." := by
        simp [handleRunWorkflow, hm]
      rw [hrun] at h
      exact RunAction.noConfusion h
    | some m0 =>
      by_cases hs : sel.length = 0
      · have hrun : handleRunWorkflow opts name sel u =
            .rejected "Select at least one analysis option." := by
          simp [handleRunWorkflow, hm, hs]
        rw [hrun] at h
        exact RunAction.noConfusion h
      · have hrun : handleRunWorkflow opts name sel u =
            .posted
              { message := ""
                workflow := "kommune_match_overview"
                kommune_name := m0.kommune
                data_source := "raw"
                requested_analyses := sel
                use_llm := u
                include_mcp_resources := false } := by
          simp [handleRunWorkflow, hm, hs]
        rw [hrun] at h
        injection h with h2
        rw [← h2]
        exact ⟨rfl, rfl, rfl⟩
  refine ⟨rfl, ?_, ?_, ?_, ?_, ?_, ?_⟩
  · rw [← hbody.1]
    simp [encodeChatRequestBody]
  · rw [← hbody.2.1]
    simp [encodeChatRequestBody]
  · rw [← hbody.2.2]
    simp [encodeChatRequestBody]
  · intro α encData s
    rfl
  · intro α encData r
    rcases r with ⟨s, l, a⟩
    cases s <;> cases l <;> cases a <;> simp [encodeChatResponse]
  · intro ls
    rcases ls with ⟨t, e⟩
    cases t <;> cases e <;> simp [encodeLlmSummary]

/-- C5 witness: a concrete successful workflow launch posts a body whose
JSON fields are exactly the seven documented request fields. -/
theorem chat_exchange_shape_witness :
    (encodeChatRequestBody
        { message := ""
          workflow := "kommune_match_overview"
          kommune_name := "Bergen"
          data_source := "raw"
          requested_analyses := ["occupancy"]
          use_llm := true
          include_mcp_resources := false }).map Prod.fst =
      ["message", "workflow", "kommune_name", "data_source",
       "requested_analyses", "use_llm", "include_mcp_resources"] :=
  (chat_exchange_shape [{ kommune := "Bergen", total_bruksareal := 1 }]
      (some "Bergen") ["occupancy"] true
      { message := ""
        workflow := "kommune_match_overview"
        kommune_name := "Bergen"
        data_source := "raw"
        requested_analyses := ["occupancy"]
        use_llm := true
        include_mcp_resources := false }
      (by decide)).1

/-- C3: a failure of the single external summarization call never fails the
run: the response still carries the deterministic fallback aggregate summary
and records the failure in `llm_summary.error`; and on the consumer side,
`displayedSummary` shows the LLM text only when it is non-empty after
trimming, and otherwise falls back to the response's `summary` field. -/
theorem llm_failure_degrades (catalog : List Orchestrator.AnalysisOption)
    (exec : String → String → Except String JVal)
    (summarizer : List Orchestrator.AnalysisSection → Except String String)
    (kommune : String) (keys : List String) (e : String)
    (hfail :
      summarizer (keys.map (Orchestrator.runSection catalog exec kommune)) =
        .error e) :
    (Orchestrator.run catalog exec summarizer kommune keys true).aggregate_summary =
      Orchestrator.aggregateSummary
        (keys.map (Orchestrator.runSection catalog exec kommune)) ∧
    (Orchestrator.run catalog exec summarizer kommune keys true).llm_summary =
      some { text := none, error := some e } ∧
    (Orchestrator.run catalog exec summarizer kommune keys true).sections.length =
      keys.length ∧
    (∀ (summ : Option String) (t : String) (err : Option String)
        (secs : Option (List (AgentAnalysisSection Unit))),
      (t.trim ≠ "" →
        displayedSummary
          (some { summary := summ, llm_summary := some { text := some t, error := err },
                  analysis_sections := secs }) true = t.trim) ∧
      (t.trim = "" →
        displayedSummary
          (some { summary := summ, llm_summary := some { text := some t, error := err },
                  analysis_sections := secs }) true = summ.getD "")) := by
  refine ⟨rfl, ?_, ?_, ?_⟩
  · simp [Orchestrator.run, hfail]
  · simp [Orchestrator.run]
  · intro summ t err secs
    constructor
    · intro ht
      simp [displayedSummary, ht]
    · intro ht
      simp [displayedSummary, ht]

/-- C3 witness: with a concrete failing summarizer the run still returns the
fallback aggregate summary and records the failure message. -/
theorem llm_failure_degrades_witness :
    (Orchestrator.run [] (fun _ _ => Except.error "boom")
        (fun _ => Except.error "LLM down") "Bergen" ["a"] true).llm_summary =
      some { text := none, error := some "LLM down" } :=
  (llm_failure_degrades [] (fun _ _ => Except.error "boom")
      (fun _ => Except.error "LLM down") "Bergen" ["a"] "LLM down" rfl).2.1

/-- Skipping leading trivia consumes a leading all-whitespace prefix, fuel
permitting. -/
theorem skipLeadingTrivia_ws_append (ws : List Char)
    (hws : ∀ c ∈ ws, c.isWhitespace = true) (n : Nat) (cs : List Char) :
    Gateway.skipLeadingTrivia (n + ws.length) (ws ++ cs) =
      Gateway.skipLeadingTrivia n cs := by
  induction ws with
  | nil => simp
  | cons c ws ih =>
    have hc : c.isWhitespace = true := hws c (List.mem_cons_self c ws)
    have hlen : n + (c :: ws).length = (n + ws.length) + 1 := by
      simp [List.length_cons]
      omega
    rw [hlen]
    show Gateway.skipLeadingTrivia ((n + ws.length) + 1) (c :: (ws ++ cs)) =
      Gateway.skipLeadingTrivia n cs
    rw [Gateway.skipLeadingTrivia, if_pos hc]
    exact ih (fun d hd => hws d (List.mem_cons_of_mem c hd))

/-- C2: the Query Safety Gateway rejects every write-classified statement
with `PermissionDenied` when `allow_write` is false, before the statement
can reach the underlying engine (the result does not depend on the engine),
and the write classification is stable under prepending leading
whitespace. -/
theorem gateway_write_denied (cfg : Gateway.GatewayConfig) (sql : String)
    (hw : Gateway.classifyStatement sql = .write)
    (ha : cfg.allow_write = false) :
    (∀ engine, Gateway.execute cfg engine sql =
      .error .permissionDenied) ∧
    (∀ engine1 engine2,
      Gateway.execute cfg engine1 sql = Gateway.execute cfg engine2 sql) ∧
    (∀ ws : List Char, (∀ c ∈ ws, c.isWhitespace = true) →
      Gateway.classifyStatement (String.mk (ws ++ sql.data)) = .write) := by
  have hkw : ∀ ws : List Char, (∀ c ∈ ws, c.isWhitespace = true) →
      Gateway.leadingKeyword (String.mk (ws ++ sql.data)) =
        Gateway.leadingKeyword sql := by
    intro ws hws
    unfold Gateway.leadingKeyword
    have hdata : (String.mk (ws ++ sql.data)).data = ws ++ sql.data := rfl
    rw [hdata]
    have hlen : (ws ++ sql.data).length + 1 =
        (sql.data.length + 1) + ws.length := by
      rw [List.length_append]
      omega
    rw [hlen, skipLeadingTrivia_ws_append ws hws (sql.data.length + 1) sql.data]
  refine ⟨?_, ?_, ?_⟩
  · intro engine
    simp [Gateway.execute, hw, ha]
  · intro engine1 engine2
    simp [Gateway.execute, hw, ha]
  · intro ws hws
    unfold Gateway.classifyStatement at hw ⊢
    rw [hkw ws hws]
    exact hw

/-- C2 witness: a mixed-case INSERT statement behind leading whitespace and
leading comments is rejected with `PermissionDenied` under
`allow_write = false`, whatever the engine would have answered. -/
theorem gateway_write_denied_witness :
    Gateway.execute
        { read_only := false, allow_write := false, row_limit := 1000 }
        (fun _ => Except.ok { columns := [], rows := [] })
        "  /* note */ -- c\n iNsErT INTO t VALUES (1)" =
      Except.error Gateway.QueryError.permissionDenied :=
  (gateway_write_denied
      { read_only := false, allow_write := false, row_limit := 1000 }
      "  /* note */ -- c\n iNsErT INTO t VALUES (1)"
      (by decide) rfl).1 _

/-- C7: a successfully executed query returns column names, loosely typed
row values and a row count; rows are capped at the configured row limit with
the `truncated` flag set exactly when the raw result exceeds the limit, and
truncation is reported as a successful result, never as an error. -/
theorem gateway_rowset_truncation (cfg : Gateway.GatewayConfig)
    (engine : String → Except String Gateway.RawResult) (sql : String)
    (raw : Gateway.RawResult)
    (hr : Gateway.classifyStatement sql = .read)
    (he : engine sql = .ok raw) :
    Gateway.execute cfg engine sql =
      .ok
        { columns := raw.columns
          rows := raw.rows.take cfg.row_limit
          row_count := (raw.rows.take cfg.row_limit).length
          truncated := decide (cfg.row_limit < raw.rows.length) } ∧
    (raw.rows.take cfg.row_limit).length ≤ cfg.row_limit ∧
    (cfg.row_limit < raw.rows.length →
      (raw.rows.take cfg.row_limit).length = cfg.row_limit ∧
      decide (cfg.row_limit < raw.rows.length) = true) ∧
    (raw.rows.length ≤ cfg.row_limit →
      raw.rows.take cfg.row_limit = raw.rows ∧
      decide (cfg.row_limit < raw.rows.length) = false) := by
  refine ⟨?_, ?_, ?_, ?_⟩
  · have hnw : ¬ (Gateway.classifyStatement sql = .write ∧
        cfg.allow_write = false) := by
      rintro ⟨hc, -⟩
      rw [hr] at hc
      exact Gateway.SqlClass.noConfusion hc
    simp [Gateway.execute, hnw, he]
  · rw [List.length_take]
    exact min_le_left _ _
  · intro hlt
    refine ⟨?_, by simp [hlt]⟩
    rw [List.length_take]
    exact Nat.min_eq_left (Nat.le_of_lt hlt)
  · intro hle
    exact ⟨List.take_of_length_le hle, by simp [Nat.not_lt.mpr hle]⟩

/-- C7 witness: with a row limit of 2 and a raw result of 3 rows, the
gateway returns a successful row set holding the first 2 rows with the
`truncated` flag set. -/
theorem gateway_rowset_truncation_witness :
    Gateway.execute
        { read_only := false, allow_write := false, row_limit := 2 }
        (fun _ =>
          Except.ok
            { columns := ["c"]
              rows := [[Gateway.JsCell.num 1], [Gateway.JsCell.num 2],
                [Gateway.JsCell.num 3]] })
        "SELECT 1" =
      Except.ok
        { columns := ["c"]
          rows := [[Gateway.JsCell.num 1], [Gateway.JsCell.num 2]]
          row_count := 2
          truncated := true } := by
  have h :=
    (gateway_rowset_truncation
        { read_only := false, allow_write := false, row_limit := 2 }
        (fun _ =>
          Except.ok
            { columns := ["c"]
              rows := [[Gateway.JsCell.num 1], [Gateway.JsCell.num 2],
                [Gateway.JsCell.num 3]] })
        "SELECT 1"
        { columns := ["c"]
          rows := [[Gateway.JsCell.num 1], [Gateway.JsCell.num 2],
            [Gateway.JsCell.num 3]] }
        (by decide) rfl).1
  rw [h]
  rfl

/-- C6: the Intent Classifier is total and never blocks a request: with a
non-negative threshold, only one domain scoring above the threshold routes
to that domain, both above routes to both, neither above defaults to the
broad both-domains routing, and a question matching no keyword of either
set yields the default broad routing. -/
theorem classify_never_blocks (cfg : IntentClassifier.ClassifierConfig)
    (question : String) (hth : 0 ≤ cfg.threshold) :
    (IntentClassifier.classify cfg question).domains ≠ [] ∧
    (cfg.threshold < IntentClassifier.domainScore cfg.property_keywords question →
      cfg.threshold < IntentClassifier.domainScore cfg.claims_keywords question →
      (IntentClassifier.classify cfg question).domains =
        [IntentClassifier.Domain.property, IntentClassifier.Domain.claims]) ∧
    (cfg.threshold < IntentClassifier.domainScore cfg.property_keywords question →
      ¬ cfg.threshold < IntentClassifier.domainScore cfg.claims_keywords question →
      (IntentClassifier.classify cfg question).domains =
        [IntentClassifier.Domain.property]) ∧
    (¬ cfg.threshold < IntentClassifier.domainScore cfg.property_keywords question →
      cfg.threshold < IntentClassifier.domainScore cfg.claims_keywords question →
      (IntentClassifier.classify cfg question).domains =
        [IntentClassifier.Domain.claims]) ∧
    (¬ cfg.threshold < IntentClassifier.domainScore cfg.property_keywords question →
      ¬ cfg.threshold < IntentClassifier.domainScore cfg.claims_keywords question →
      (IntentClassifier.classify cfg question).domains =
        [IntentClassifier.Domain.property, IntentClassifier.Domain.claims]) ∧
    (IntentClassifier.keywordMatches cfg.property_keywords question = [] →
      IntentClassifier.keywordMatches cfg.claims_keywords question = [] →
      (IntentClassifier.classify cfg question).domains =
        [IntentClassifier.Domain.property, IntentClassifier.Domain.claims]) := by
  refine ⟨?_, ?_, ?_, ?_, ?_, ?_⟩
  · by_cases h1 :
      cfg.threshold < IntentClassifier.domainScore cfg.property_keywords question <;>
    by_cases h2 :
      cfg.threshold < IntentClassifier.domainScore cfg.claims_keywords question <;>
    simp [IntentClassifier.classify, h1, h2]
  · intro h1 h2
    simp [IntentClassifier.classify, h1, h2]
  · intro h1 h2
    simp [IntentClassifier.classify, h1, h2]
  · intro h1 h2
    simp [IntentClassifier.classify, h1, h2]
  · intro h1 h2
    simp [IntentClassifier.classify, h1, h2]
  · intro hm1 hm2
    have hps : IntentClassifier.domainScore cfg.property_keywords question = 0 := by
      simp [IntentClassifier.domainScore, hm1]
    have hcs : IntentClassifier.domainScore cfg.claims_keywords question = 0 := by
      simp [IntentClassifier.domainScore, hm2]
    simp [IntentClassifier.classify, IntentClassifier.domainScore, hm1, hm2,
      not_lt.mpr hth]

/-- C6 witness: with concrete keyword sets and threshold 1/10, classifying
the keyword-free question "Bergen" yields the default broad routing to both
domains. -/
theorem classify_never_blocks_witness :
    (IntentClassifier.classify
        { property_keywords := ["building", "exposure", "property"]
          claims_keywords := ["claims", "claim", "skade"]
          threshold := 1/10 }
        "Bergen").domains =
      [IntentClassifier.Domain.property, IntentClassifier.Domain.claims] :=
  (classify_never_blocks
      { property_keywords := ["building", "exposure", "property"]
        claims_keywords := ["claims", "claim", "skade"]
        threshold := 1/10 }
      "Bergen" (by norm_num)).2.2.2.2.2 (by decide) (by decide)

/-- C1: the orchestrator's response always carries one section per requested
key, keyed exactly by the requested keys in their requested order, whatever
the catalog, the tool executions and the summarizer do; in particular an
unknown requested key yields an error section rather than a whole-request
failure. -/
theorem run_sections_align (catalog : List Orchestrator.AnalysisOption)
    (exec : String → String → Except String JVal)
    (summarizer : List Orchestrator.AnalysisSection → Except String String)
    (kommune : String) (keys : List String) (u : Bool) :
    ((Orchestrator.run catalog exec summarizer kommune keys u).sections.map
        (fun s => s.key) = keys) ∧
    (Orchestrator.run catalog exec summarizer kommune keys u).sections.length =
      keys.length ∧
    (∀ k, ((Orchestrator.run catalog exec summarizer kommune keys u).sections.map
        (fun s => s.key)).count k = keys.count k) ∧
    (∀ k ∈ keys, catalog.find? (fun o => o.key == k) = none →
      ∃ s ∈ (Orchestrator.run catalog exec summarizer kommune keys u).sections,
        s.key = k ∧ s.status = .error) := by
  have hkey : ∀ k, (Orchestrator.runSection catalog exec kommune k).key = k := by
    intro k
    unfold Orchestrator.runSection
    cases catalog.find? (fun o => o.key == k) with
    | none => rfl
    | some opt =>
      cases exec k kommune with
      | error m => rfl
      | ok p => rfl
  have hsec : (Orchestrator.run catalog exec summarizer kommune keys u).sections =
      keys.map (Orchestrator.runSection catalog exec kommune) := rfl
  have hmap : (Orchestrator.run catalog exec summarizer kommune keys u).sections.map
      (fun s => s.key) = keys := by
    rw [hsec, List.map_map]
    have hcomp : ((fun s : Orchestrator.AnalysisSection => s.key) ∘
        Orchestrator.runSection catalog exec kommune) = fun k => k := by
      funext k
      exact hkey k
    rw [hcomp]
    simp
  refine ⟨hmap, ?_, ?_, ?_⟩
  · rw [hsec, List.length_map]
  · intro k
    rw [hmap]
  · intro k hk hfind
    refine ⟨Orchestrator.runSection catalog exec kommune k, ?_, hkey k, ?_⟩
    · rw [hsec]
      exact List.mem_map_of_mem _ hk
    · simp [Orchestrator.runSection, hfind]

/-- C1 witness: against an empty catalog (every key unknown) and failing
tool executions, the response still consists of exactly the two requested
keys in order. -/
theorem run_sections_align_witness :
    ((Orchestrator.run [] (fun _ _ => Except.error "boom")
        (fun _ => Except.error "llm") "Bergen" ["good", "bad"] false).sections.map
      (fun s => s.key)) = ["good", "bad"] :=
  (run_sections_align [] (fun _ _ => Except.error "boom")
      (fun _ => Except.error "llm") "Bergen" ["good", "bad"] false).1

end Agents
